import Mathlib

/-!
Verification of the slide-artifact creation / capture repository.

The file embeds, per component:
* `SpecExtractor` — font-pair and color-palette extraction from a prompt
  (modelled from the spec, §4.1: the extractor runs inside the remotely
  deployed script; only its callers live in the repository).
* `ApiModel` — the transport layer of `test_api.py`,
  `scripts/screenshot_presentation.py` and `create_font_comparison.py`.
* `CapturePipeline` — the multi-strategy capture chain of §4.3 (modelled
  from the spec; the chain exists only as separate entry scripts).
* `ScreenshotScripts` — resource handling of the screenshot entry scripts.
* `ExportModel` — `scripts/export_screenshot.py`.
-/

namespace SpecExtractor

/-- A heading/body font pair, both fields intended non-empty. -/
structure FontPair where
  heading : String
  body : String
deriving DecidableEq, Repr

/-- An ordered palette of 6-hex-digit color codes with its source URL. -/
structure ColorPalette where
  sourceUrl : String
  hexCodes : List String
deriving DecidableEq, Repr

/-- Split a string into space-separated words (empty runs dropped). -/
def wordsAux : List Char → List Char → List String
  | acc, [] => if acc.isEmpty then [] else [String.mk acc.reverse]
  | acc, c :: cs =>
    if c = ' ' then
      if acc.isEmpty then wordsAux [] cs
      else String.mk acc.reverse :: wordsAux [] cs
    else wordsAux (c :: acc) cs

def words (s : String) : List String := wordsAux [] s.data

/-- Lower-case a word character by character (ASCII case folding). -/
def lowerWord (w : String) : String := String.mk (w.data.map Char.toLower)

/-- A word counts as capitalized when its first character is an upper-case
letter (a font-family-like token per the spec). -/
def isCapitalized (w : String) : Bool :=
  match w.data with
  | [] => false
  | c :: _ => c.isUpper

/-- Split a character list at its LAST slash, if any. -/
def splitLastSlashChars : List Char → Option (List Char × List Char)
  | [] => none
  | c :: cs =>
    match splitLastSlashChars cs with
    | some (l, r) => some (c :: l, r)
    | none => if c = '/' then some ([], cs) else none

/-- Split a string at its last slash: segment left of the last `/` and the
segment right of it. -/
def splitLastSlash (s : String) : Option (String × String) :=
  match splitLastSlashChars s.data with
  | some (l, r) => some (String.mk l, String.mk r)
  | none => none

/-- Join words with single spaces. -/
def joinWords : List String → String
  | [] => ""
  | [w] => w
  | w :: ws => w ++ " " ++ joinWords ws

/-- Modelled from the spec (§4.1): given the reversed list of the words seen
before an occurrence of the word "fonts", take the maximal run of
capitalized words immediately before it, split the joined phrase at the
last slash, and accept only non-empty heading and body. -/
def parsePhrase (rev : List String) : Option FontPair :=
  match splitLastSlash (joinWords ((rev.takeWhile fun w => isCapitalized w).reverse)) with
  | some (x, y) =>
    if x = "" then none else if y = "" then none else some ⟨x, y⟩
  | none => none

/-- Modelled from the spec (§4.1): left-to-right scan for the word "fonts"
(case-insensitive); the first occurrence whose preceding capitalized phrase
splits at a slash into non-empty heading and body wins. -/
def fontScan : List String → List String → Option FontPair
  | _, [] => none
  | rev, w :: rest =>
    if lowerWord w = "fonts" then
      match parsePhrase rev with
      | some fp => some fp
      | none => fontScan (w :: rev) rest
    else fontScan (w :: rev) rest

/-- The recognized palette-service URL prefix (the repository's prompts use
coolors.co palette URLs). -/
def coolorsPrefix : String := "https://coolors.co/"

/-- Strip a prefix from a character list, or fail. -/
def dropPrefixChars : List Char → List Char → Option (List Char)
  | [], rest => some rest
  | _ :: _, [] => none
  | p :: ps, c :: cs => if c = p then dropPrefixChars ps cs else none

/-- Split a character list on dashes into string tokens. -/
def splitDashChars : List Char → List Char → List String
  | acc, [] => [String.mk acc.reverse]
  | acc, c :: cs =>
    if c = '-' then String.mk acc.reverse :: splitDashChars [] cs
    else splitDashChars (c :: acc) cs

def isHexDigitChar (c : Char) : Bool :=
  c.isDigit || (('a' ≤ c) && (c ≤ 'f')) || (('A' ≤ c) && (c ≤ 'F'))

/-- A token is valid when it is exactly 6 hex digits. -/
def isHex6 (t : String) : Bool :=
  (t.data.length == 6) && t.data.all isHexDigitChar

/-- Validate a split token sequence: all tokens must be 6 hex digits, and
an empty sequence yields no palette. -/
def parseTokens (w : String) (toks : List String) : Option ColorPalette :=
  if toks.isEmpty then none
  else if toks.all isHex6 then some ⟨w, toks⟩ else none

/-- Modelled from the spec (§4.1): recognize a palette-service URL, split
the path on `-`, validate each token is exactly 6 hex digits, and keep the
URL order; any invalid token aborts the whole palette. -/
def parseCoolorsUrl (w : String) : Option ColorPalette :=
  match dropPrefixChars coolorsPrefix.data w.data with
  | none => none
  | some rest => parseTokens w (splitDashChars [] rest)

/-- Modelled from the spec (§4.1): first palette URL in reading order. -/
def paletteScan : List String → Option ColorPalette
  | [] => none
  | w :: rest =>
    match parseCoolorsUrl w with
    | some pal => some pal
    | none => paletteScan rest

/-- Modelled from the spec (§4.1): `extract(promptText) ->
(FontPair?, ColorPalette?)`, a pure total function; the extractor itself is
deployed remotely and is not part of the repository's python sources. -/
def extract (p : String) : Option FontPair × Option ColorPalette :=
  (fontScan [] (words p), paletteScan (words p))

/-- Join tokens with single dashes. -/
def joinDash : List String → String
  | [] => ""
  | [t] => t
  | t :: ts => t ++ "-" ++ joinDash ts

/-- The dash-separated token sequence of a palette URL (empty when the URL
does not carry the palette-service prefix). -/
def urlTokens (w : String) : List String :=
  match dropPrefixChars coolorsPrefix.data w.data with
  | some rest => splitDashChars [] rest
  | none => []

end SpecExtractor

namespace ApiModel

/-- A python fault that can escape a `requests` call or response handling. -/
inductive PyErr where
  | requestRaised
  | jsonDecodeError
  | keyError
deriving DecidableEq, Repr

/-- The decoded shape of a creation-service response body: either not JSON
at all, or a JSON object whose `result.success` is truthy or falsy, with an
optional `result.presentationId`. -/
inductive Body where
  | notJson
  | jsonB (success : Bool) (pid : Option String)
deriving DecidableEq, Repr

/-- A transport outcome of `requests.post`/`requests.get`: the call either
raises (unreachable endpoint, timeout) or yields a status and a body. -/
inductive TResp where
  | raise
  | resp (status : Nat) (body : Body)
deriving DecidableEq, Repr

/-- The value returned by `create_presentation_via_api` on the happy path
(`scripts/screenshot_presentation.py`): the dict built from the response.
`presentation_id` is read with `.get`, so it may be absent. -/
structure PresData where
  presentation_id : Option String
  edit_url : String
  pub_url : String
deriving DecidableEq, Repr

/-- Python string interpolation of a possibly-absent id. -/
def presValue : Option String → String
  | some s => s
  | none => "None"

/-- Embedding of `create_presentation_via_api`
(`scripts/screenshot_presentation.py`, lines 19–53). A raising post or a
non-JSON 200 body escapes as an exception; a non-200 status or a falsy
`result.success` returns `None`; success returns the presentation dict. -/
def create_presentation_via_api (r : TResp) : Except PyErr (Option PresData) :=
  match r with
  | .raise => .error .requestRaised
  | .resp status body =>
    if status = 200 then
      match body with
      | .notJson => .error .jsonDecodeError
      | .jsonB success pid =>
        if success then
          .ok (some ⟨pid,
            "https://docs.google.com/presentation/d/" ++ presValue pid ++ "/edit",
            "https://docs.google.com/presentation/d/" ++ presValue pid ++ "/pub"⟩)
        else .ok none
    else .ok none

/-- The printed outcome of `test_api.py`'s `main`. -/
inductive ApiOutcome where
  | success (pid : Option String)
  | apiFailed
  | httpError (status : Nat)
  | caughtError (e : PyErr)
deriving DecidableEq, Repr

/-- The body of the `try:` block of `test_api.py`'s `main` (lines 17–55):
the faults it can raise and the outcome it prints otherwise. -/
def test_api_inner (r : TResp) : Except PyErr ApiOutcome :=
  match r with
  | .raise => .error .requestRaised
  | .resp status body =>
    if status = 200 then
      match body with
      | .notJson => .error .jsonDecodeError
      | .jsonB success pid =>
        if success then .ok (.success pid) else .ok .apiFailed
    else .ok (.httpError status)

/-- Embedding of `test_api.py`'s `main`: the blanket `except Exception`
turns every fault of the try-block into a printed error outcome. -/
def test_api_main (r : TResp) : ApiOutcome :=
  match test_api_inner r with
  | .ok o => o
  | .error e => .caughtError e

/-- The baseline prompt sent by `create_font_comparison` (first post). -/
def beforePrompt : String :=
  "Create presentation with default fonts - BEFORE demonstration"

/-- The styled prompt sent by `create_font_comparison` (second post). -/
def afterPrompt : String :=
  "Create presentation with https://coolors.co/edd3c4-c8adc0-7765e3-3b60e4-080708 and Merriweather/Inter fonts - AFTER demonstration"

/-- One entry of the `presentations` list built by
`create_font_comparison` (`src/create_font_comparison.py`). -/
structure ComparisonPres where
  type_ : String
  id : String
  title : String
  edit_url : String
  pub_url : String
deriving DecidableEq, Repr

def mkComparisonPres (ty title id : String) : ComparisonPres :=
  ⟨ty, id, title,
    "https://docs.google.com/presentation/d/" ++ id ++ "/edit",
    "https://docs.google.com/presentation/d/" ++ id ++ "/pub"⟩

/-- Handling of one creation response inside `create_font_comparison`:
a raising post, a non-JSON 200 body (`response.json()` raises) or a
success body without `presentationId` (`KeyError`) escapes as an
exception; a non-200 status or falsy `result.success` only prints and
appends nothing; success appends the presentation entry. -/
def processCreation (r : TResp) (ty title : String) :
    Except PyErr (Option ComparisonPres) :=
  match r with
  | .raise => .error .requestRaised
  | .resp status body =>
    if status = 200 then
      match body with
      | .notJson => .error .jsonDecodeError
      | .jsonB success pid =>
        if success then
          match pid with
          | none => .error .keyError
          | some id => .ok (some (mkComparisonPres ty title id))
        else .ok none
    else .ok none

/-- Embedding of `create_font_comparison`
(`src/create_font_comparison.py`, lines 9–89), given the transport
outcomes of the two posts. The second component is the ordered log of the
prompts actually posted; the first is the returned `presentations` list,
or the python fault that escaped. -/
def create_font_comparison (r1 r2 : TResp) :
    Except PyErr (List ComparisonPres) × List String :=
  match processCreation r1 "BEFORE" "Default Fonts (Before)" with
  | .error e => (.error e, [beforePrompt])
  | .ok o1 =>
    match processCreation r2 "AFTER" "Merriweather/Inter Fonts (After)" with
    | .error e => (.error e, [beforePrompt, afterPrompt])
    | .ok o2 => (.ok (o1.toList ++ o2.toList), [beforePrompt, afterPrompt])

end ApiModel

namespace CapturePipeline

/-- Modelled from the spec (§4.3): the outcome of driving one capture
strategy to completion — a saved file with its byte size, or an
automation-level fault with its reason. The pipeline itself exists in the
repository only as an implicit chain of separate entry scripts
(`quick_screenshot.py`, `final_screenshot.py`, `debug_screenshot.py`). -/
inductive Outcome where
  | success (filePath : String) (byteSize : Nat)
  | fault (reason : String)
deriving DecidableEq, Repr

def Outcome.isFault : Outcome → Bool
  | .fault _ => true
  | _ => false

/-- A strategy: its fixed name and the outcome of attempting it once. -/
structure Strategy where
  name : String
  run : Outcome
deriving DecidableEq, Repr

/-- One logged attempt: the strategy tag and its outcome. -/
structure CaptureAttempt where
  strategyName : String
  outcome : Outcome
deriving DecidableEq, Repr

/-- Modelled from the spec (§4.3): attempt strategies in order, stopping at
the first success; each strategy is attempted at most once; the returned
attempt is the first success, or the last failure when all fail. The first
component is the append-only internal log. -/
def captureGo : Strategy → List Strategy → List CaptureAttempt × CaptureAttempt
  | s, rest =>
    match s.run, rest with
    | .success p b, _ => ([⟨s.name, .success p b⟩], ⟨s.name, .success p b⟩)
    | .fault r, [] => ([⟨s.name, .fault r⟩], ⟨s.name, .fault r⟩)
    | .fault r, s2 :: rest2 =>
      let next := captureGo s2 rest2
      (⟨s.name, .fault r⟩ :: next.1, next.2)

/-- Modelled from the spec (§4.3): the fixed strategy order
explicit-driver, managed-driver, visible-fallback. -/
def capture (oEx oMg oVis : Outcome) : List CaptureAttempt × CaptureAttempt :=
  captureGo ⟨"explicit-driver", oEx⟩
    [⟨"managed-driver", oMg⟩, ⟨"visible-fallback", oVis⟩]

end CapturePipeline

namespace ScreenshotScripts

/-- Which steps of a screenshot entry script succeed: resolving/installing
the driver binary, launching the browser, navigating, and saving the
screenshot. A `false` step raises at that point. -/
structure DriverWorld where
  installOk : Bool
  chromeOk : Bool
  navOk : Bool
  shotOk : Bool
deriving DecidableEq, Repr

/-- What a run of a screenshot script did: whether a driver instance was
created, whether it was released (`driver.quit()` reached), and the path
returned on success. -/
structure ScriptRun where
  driverCreated : Bool
  driverReleased : Bool
  result : Option String
deriving DecidableEq, Repr

/-- Embedding of `final_screenshot.py`'s `main` (lines 13–53): the
try-block quits the driver only at its very end; the except-branch prints
and returns `None` without any `finally`, so a fault after driver launch
leaves the driver unreleased. -/
def final_screenshot_main (w : DriverWorld) : ScriptRun :=
  if !w.installOk then ⟨false, false, none⟩
  else if !w.chromeOk then ⟨false, false, none⟩
  else if !w.navOk then ⟨true, false, none⟩
  else if !w.shotOk then ⟨true, false, none⟩
  else ⟨true, true, some "screenshots/working_presentation_demo.png"⟩

/-- Embedding of `quick_screenshot.py`'s `main` (lines 12–47): no install
step (explicit driver path); the `finally:` block quits the driver
whenever it exists in scope, on success and on failure alike. -/
def quick_screenshot_main (w : DriverWorld) : ScriptRun :=
  if !w.chromeOk then ⟨false, false, none⟩
  else if !w.navOk then ⟨true, true, none⟩
  else if !w.shotOk then ⟨true, true, none⟩
  else ⟨true, true, some "screenshots/font_pair_demo_working.png"⟩

/-- Fixed settle interval (seconds) slept before capturing the public view
in `scripts/screenshot_presentation.py` (line 88: `time.sleep(5)`). -/
def screenshot_presentation_pub_settle : Nat := 5

/-- Fixed settle interval (seconds) slept before capturing the edit view
in `scripts/screenshot_presentation.py` (line 99: `time.sleep(8)`). -/
def screenshot_presentation_edit_settle : Nat := 8

/-- Fixed settle interval (seconds) slept before capturing the public view
in `debug_screenshot.py` (line 36: `time.sleep(10)`). -/
def debug_screenshot_pub_settle : Nat := 10

/-- Fixed settle interval (seconds) slept before capturing the public view
in `scripts/simple_screenshot.py` (`time.sleep(8)`). -/
def simple_screenshot_pub_settle : Nat := 8

/-- Fixed settle interval (seconds) slept before capturing the public view
in `quick_screenshot.py` (`time.sleep(5)`). -/
def quick_screenshot_pub_settle : Nat := 5

/-- Fixed settle interval (seconds) slept before capturing the public view
in `final_screenshot.py` (`time.sleep(5)`). -/
def final_screenshot_pub_settle : Nat := 5

end ScreenshotScripts

namespace ExportModel

/-- A transport outcome of an export `requests.get`: raise or a status. -/
inductive GetResp where
  | raise
  | resp (status : Nat)
deriving DecidableEq, Repr

/-- Embedding of `export_presentation_screenshots`
(`scripts/export_screenshot.py`, lines 10–77), parametrized by the
timestamp string and the outcomes of the png and svg export GETs; returns
the list of file paths written, in order. A raising GET aborts the
try-block, keeping earlier writes; a non-200 status writes nothing. -/
def export_presentation_screenshots (ts : String) (r1 r2 : GetResp) :
    List String :=
  match r1 with
  | .raise => []
  | .resp s1 =>
    let w1 := if s1 = 200 then
      ["screenshots/font_demo_export_" ++ ts ++ ".png"] else []
    match r2 with
    | .raise => w1
    | .resp s2 =>
      w1 ++ (if s2 = 200 then
        ["screenshots/font_demo_export_" ++ ts ++ ".svg"] else [])

/-- The export GETs actually issued, with their format tags: the png GET is
always issued; the svg GET only when the png GET did not raise. -/
def exportIssuedGets (r1 r2 : GetResp) : List (String × GetResp) :=
  ("png", r1) :: (match r1 with
    | .raise => []
    | .resp _ => [("svg", r2)])

/-- The file an issued export GET produces: a write exactly when the GET
returned status 200. -/
def exportFileFor (ts : String) : String × GetResp → Option String
  | (fmt, .resp s) =>
    if s = 200 then some ("screenshots/font_demo_export_" ++ ts ++ "." ++ fmt)
    else none
  | (_, .raise) => none

end ExportModel

/-! ## Helper lemmas -/

namespace SpecExtractor

theorem takeWhile_all_append (p : String → Bool) (l1 l2 : List String)
    (h : ∀ x ∈ l1, p x = true) :
    (l1 ++ l2).takeWhile p = l1 ++ l2.takeWhile p := by
  induction l1 with
  | nil => simp
  | cons a l ih =>
    have ha : p a = true := h a (by simp)
    simp only [List.cons_append, List.takeWhile_cons, ha, if_true]
    rw [ih (fun x hx => h x (by simp [hx]))]

theorem takeWhile_head_false (p : String → Bool) (l : List String)
    (h : ∀ x, l.head? = some x → p x = false) :
    l.takeWhile p = [] := by
  cases l with
  | nil => rfl
  | cons a l =>
    have ha : p a = false := h a rfl
    simp [List.takeWhile_cons, ha]

theorem fontScan_no_fonts_append (pre rest rev : List String)
    (h : ∀ u ∈ pre, lowerWord u ≠ "fonts") :
    fontScan rev (pre ++ rest) = fontScan (pre.reverse ++ rev) rest := by
  induction pre generalizing rev with
  | nil => simp
  | cons u pre ih =>
    have hu : lowerWord u ≠ "fonts" := h u (by simp)
    show fontScan rev (u :: (pre ++ rest)) = _
    rw [fontScan, if_neg hu, ih (u :: rev) (fun v hv => h v (by simp [hv]))]
    simp [List.append_assoc]

theorem parsePhrase_eval (ws pre : List String) (X Y : String)
    (hcap : ∀ u ∈ ws, isCapitalized u = true)
    (hlast : pre.getLast?.all (fun u => !isCapitalized u) = true)
    (hsplit : splitLastSlash (joinWords ws) = some (X, Y))
    (hX : X ≠ "") (hY : Y ≠ "") :
    parsePhrase (ws.reverse ++ pre.reverse) = some ⟨X, Y⟩ := by
  unfold parsePhrase
  have h1 : (ws.reverse ++ pre.reverse).takeWhile (fun w => isCapitalized w) =
      ws.reverse ++ pre.reverse.takeWhile (fun w => isCapitalized w) :=
    takeWhile_all_append _ _ _ (fun x hx => hcap x (List.mem_reverse.mp hx))
  have h2 : pre.reverse.takeWhile (fun w => isCapitalized w) = [] := by
    apply takeWhile_head_false
    intro x hx
    rw [List.head?_reverse] at hx
    rw [hx] at hlast
    simpa using hlast
  rw [h1, h2, List.append_nil, List.reverse_reverse, hsplit]
  simp [hX, hY]

theorem parsePhrase_nonempty (rev : List String) (fp : FontPair)
    (h : parsePhrase rev = some fp) : fp.heading ≠ "" ∧ fp.body ≠ "" := by
  unfold parsePhrase at h
  split at h
  · split at h
    · exact absurd h (by simp)
    · split at h
      · exact absurd h (by simp)
      · rename_i hx hy
        obtain rfl := Option.some.inj h
        exact ⟨hx, hy⟩
  · exact absurd h (by simp)

theorem fontScan_nonempty (l : List String) :
    ∀ rev fp, fontScan rev l = some fp → fp.heading ≠ "" ∧ fp.body ≠ "" := by
  induction l with
  | nil => intro rev fp h; exact absurd h (by simp [fontScan])
  | cons w rest ih =>
    intro rev fp h
    rw [fontScan] at h
    split at h
    · cases hp : parsePhrase rev with
      | some fp2 =>
        rw [hp] at h
        obtain rfl := Option.some.inj h
        exact parsePhrase_nonempty rev fp2 hp
      | none =>
        rw [hp] at h
        exact ih _ fp h
    · exact ih _ fp h

theorem parseCoolorsUrl_inv (w : String) (pal : ColorPalette)
    (h : parseCoolorsUrl w = some pal) :
    pal.sourceUrl = w ∧ pal.hexCodes = urlTokens w ∧
      pal.hexCodes ≠ [] ∧ ∀ t ∈ pal.hexCodes, isHex6 t = true := by
  unfold parseCoolorsUrl at h
  unfold urlTokens
  split at h
  · exact absurd h (by simp)
  · rename_i rest hdrop
    rw [hdrop]
    unfold parseTokens at h
    split at h
    · exact absurd h (by simp)
    · rename_i hempty
      split at h
      · rename_i hall
        obtain rfl := Option.some.inj h
        refine ⟨rfl, rfl, ?_, ?_⟩
        · show splitDashChars [] rest ≠ []
          intro hc
          rw [hc] at hempty
          simp at hempty
        · show ∀ t ∈ splitDashChars [] rest, isHex6 t = true
          exact fun t ht => List.all_eq_true.mp hall t ht
      · exact absurd h (by simp)

theorem paletteScan_inv (l : List String) (pal : ColorPalette)
    (h : paletteScan l = some pal) :
    pal.hexCodes ≠ [] ∧ ∀ t ∈ pal.hexCodes, isHex6 t = true := by
  induction l with
  | nil => exact absurd h (by simp [paletteScan])
  | cons w rest ih =>
    rw [paletteScan] at h
    split at h
    · rename_i pal2 hp
      obtain rfl := Option.some.inj h
      exact (parseCoolorsUrl_inv w pal2 hp).2.2
    · exact ih h

end SpecExtractor

namespace SpecExtractor

theorem isHex6_no_dash (t : String) (h : isHex6 t = true) :
    ∀ c ∈ t.data, c ≠ '-' := by
  intro c hc hdash
  unfold isHex6 at h
  simp only [Bool.and_eq_true] at h
  have := List.all_eq_true.mp h.2 c hc
  rw [hdash] at this
  exact absurd this (by decide)

theorem splitDashChars_no_dash (t : List Char) :
    ∀ acc, (∀ c ∈ t, c ≠ '-') →
      splitDashChars acc t = [String.mk (acc.reverse ++ t)] := by
  induction t with
  | nil => intro acc _; simp [splitDashChars]
  | cons c cs ih =>
    intro acc h
    have hc : c ≠ '-' := h c (by simp)
    rw [splitDashChars, if_neg hc, ih (c :: acc) (fun d hd => h d (by simp [hd]))]
    simp

theorem splitDashChars_dash (t : List Char) :
    ∀ acc rest, (∀ c ∈ t, c ≠ '-') →
      splitDashChars acc (t ++ '-' :: rest) =
        String.mk (acc.reverse ++ t) :: splitDashChars [] rest := by
  induction t with
  | nil => intro acc rest _; simp [splitDashChars]
  | cons c cs ih =>
    intro acc rest h
    have hc : c ≠ '-' := h c (by simp)
    show splitDashChars acc (c :: (cs ++ '-' :: rest)) = _
    rw [splitDashChars, if_neg hc,
      ih (c :: acc) rest (fun d hd => h d (by simp [hd]))]
    simp

theorem string_data_append (s u : String) : (s ++ u).data = s.data ++ u.data := rfl

theorem splitDash_joinDash (ts : List String) (hne : ts ≠ [])
    (h : ∀ t ∈ ts, ∀ c ∈ t.data, c ≠ '-') :
    splitDashChars [] (joinDash ts).data = ts := by
  induction ts with
  | nil => exact absurd rfl hne
  | cons t ts ih =>
    cases ts with
    | nil =>
      show splitDashChars [] (joinDash [t]).data = [t]
      rw [show joinDash [t] = t from rfl,
        splitDashChars_no_dash t.data [] (h t (by simp))]
      rfl
    | cons t2 ts2 =>
      show splitDashChars [] (joinDash (t :: t2 :: ts2)).data = t :: t2 :: ts2
      have hdata : (joinDash (t :: t2 :: ts2)).data =
          t.data ++ '-' :: (joinDash (t2 :: ts2)).data := by
        rw [show joinDash (t :: t2 :: ts2) = t ++ "-" ++ joinDash (t2 :: ts2) from rfl]
        rw [string_data_append, string_data_append, List.append_assoc]
        rfl
      rw [hdata, splitDashChars_dash t.data [] _ (h t (by simp))]
      rw [ih (by simp) (fun u hu => h u (by simp [hu]))]
      rfl

theorem dropPrefixChars_self_append (p : List Char) :
    ∀ rest, dropPrefixChars p (p ++ rest) = some rest := by
  induction p with
  | nil => intro rest; rfl
  | cons c cs ih =>
    intro rest
    show dropPrefixChars (c :: cs) (c :: (cs ++ rest)) = some rest
    rw [dropPrefixChars]
    simp [ih rest]

theorem parseCoolorsUrl_drop (w : String) (rest : List Char)
    (hdrop : dropPrefixChars coolorsPrefix.data w.data = some rest) :
    parseCoolorsUrl w = parseTokens w (splitDashChars [] rest) := by
  unfold parseCoolorsUrl
  rw [hdrop]

theorem urlTokens_drop (w : String) (rest : List Char)
    (hdrop : dropPrefixChars coolorsPrefix.data w.data = some rest) :
    urlTokens w = splitDashChars [] rest := by
  unfold urlTokens
  rw [hdrop]

theorem parseCoolorsUrl_join (ts : List String) (hne : ts ≠ [])
    (hhex : ∀ t ∈ ts, isHex6 t = true) :
    parseCoolorsUrl (coolorsPrefix ++ joinDash ts) =
      some ⟨coolorsPrefix ++ joinDash ts, ts⟩ := by
  have hdrop : dropPrefixChars coolorsPrefix.data
      (coolorsPrefix ++ joinDash ts).data = some (joinDash ts).data := by
    rw [show (coolorsPrefix ++ joinDash ts).data =
      coolorsPrefix.data ++ (joinDash ts).data from rfl]
    exact dropPrefixChars_self_append _ _
  rw [parseCoolorsUrl_drop _ _ hdrop]
  rw [splitDash_joinDash ts hne (fun t ht => isHex6_no_dash t (hhex t ht))]
  unfold parseTokens
  rw [if_neg (by simp [List.isEmpty_iff, hne])]
  rw [if_pos (List.all_eq_true.mpr hhex)]

theorem parseCoolorsUrl_bad_token (w t : String) (ht : t ∈ urlTokens w)
    (hbad : isHex6 t = false) : parseCoolorsUrl w = none := by
  cases hdrop : dropPrefixChars coolorsPrefix.data w.data with
  | none =>
    unfold parseCoolorsUrl
    rw [hdrop]
  | some rest =>
    rw [urlTokens_drop _ _ hdrop] at ht
    rw [parseCoolorsUrl_drop _ _ hdrop]
    unfold parseTokens
    rw [if_neg]
    · rw [if_neg]
      intro hall
      have := List.all_eq_true.mp hall t ht
      rw [hbad] at this
      exact absurd this (by decide)
    · intro hempty
      rw [List.isEmpty_iff] at hempty
      rw [hempty] at ht
      exact absurd ht (by simp)

end SpecExtractor

/-! ## Claim theorems -/

open SpecExtractor in
/-- Claim C3: for every prompt string, the extractor is a pure, total
function: it returns a pair of optional results on every input, never
raising; a returned font pair always has non-empty heading and body and a
returned palette always has a non-empty, all-valid hex code list, so
absence is represented by `none`, never by an error or a degenerate
value. -/
theorem spec_C3 (p : String) :
    (∃ fp cp, extract p = (fp, cp)) ∧
    (∀ fp, (extract p).1 = some fp → fp.heading ≠ "" ∧ fp.body ≠ "") ∧
    (∀ pal, (extract p).2 = some pal →
      pal.hexCodes ≠ [] ∧ ∀ t ∈ pal.hexCodes, isHex6 t = true) := by
  refine ⟨⟨_, _, rfl⟩, ?_, ?_⟩
  · intro fp h
    exact fontScan_nonempty (words p) [] fp h
  · intro pal h
    exact paletteScan_inv (words p) pal h

open SpecExtractor in
/-- Witness for C3 at a concrete prompt taken from
`test_font_parsing_final.py`. -/
theorem spec_C3_witness :
    (⟨"Merriweather", "Inter"⟩ : FontPair).heading ≠ "" ∧
    (⟨"Merriweather", "Inter"⟩ : FontPair).body ≠ "" :=
  (spec_C3 "Create presentation with Merriweather/Inter fonts").2.1
    ⟨"Merriweather", "Inter"⟩ (by decide)

open SpecExtractor in
/-- Claim C4: for every prompt whose word sequence contains a capitalized
slash-carrying phrase followed by the word "fonts" (first such occurrence
in reading order — the preceding words contain no "fonts" and the suffix
is unconstrained, so later matches cannot win), `extract` returns the
font pair obtained by splitting the phrase at its last slash: the segment
left of the last `/` is the heading and the segment right of it is the
body. -/
theorem spec_C4 (p : String) (pre ws : List String) (w : String)
    (suf : List String) (X Y : String)
    (hw : words p = pre ++ ws ++ [w] ++ suf)
    (hfonts : lowerWord w = "fonts")
    (hpre : ∀ u ∈ pre, lowerWord u ≠ "fonts")
    (hws : ∀ u ∈ ws, isCapitalized u = true ∧ lowerWord u ≠ "fonts")
    (hlast : pre.getLast?.all (fun u => !isCapitalized u) = true)
    (hsplit : splitLastSlash (joinWords ws) = some (X, Y))
    (hX : X ≠ "") (hY : Y ≠ "") :
    (extract p).1 = some ⟨X, Y⟩ := by
  show fontScan [] (words p) = some ⟨X, Y⟩
  rw [hw]
  rw [show pre ++ ws ++ [w] ++ suf = pre ++ (ws ++ ([w] ++ suf)) by
    simp [List.append_assoc]]
  rw [fontScan_no_fonts_append pre _ [] hpre]
  rw [fontScan_no_fonts_append ws _ _ (fun u hu => (hws u hu).2)]
  show fontScan (ws.reverse ++ (pre.reverse ++ [])) (w :: suf) = _
  rw [List.append_nil]
  rw [fontScan, if_pos hfonts,
    parsePhrase_eval ws pre X Y (fun u hu => (hws u hu).1) hlast hsplit hX hY]

open SpecExtractor in
/-- Witness for C4 at a concrete prompt taken from
`test_font_parsing_final.py`: a two-word heading and body split at the
last slash before "fonts". -/
theorem spec_C4_witness :
    (extract "Make a deck with Playfair Display/Open Sans fonts").1 =
      some ⟨"Playfair Display", "Open Sans"⟩ :=
  spec_C4 "Make a deck with Playfair Display/Open Sans fonts"
    ["Make", "a", "deck", "with"] ["Playfair", "Display/Open", "Sans"]
    "fonts" [] "Playfair Display" "Open Sans"
    (by decide) (by decide) (by decide) (by decide) (by decide) (by decide)
    (by decide) (by decide)

open SpecExtractor in
/-- Claim C5: palette extraction splits the dash-separated token sequence
of a palette URL, validates each token is exactly 6 hex digits, and
returns the hex codes exactly in URL order; a palette is returned only
with its URL and its full dash-split token sequence, and any invalid
token makes the whole palette absent. -/
theorem spec_C5 :
    (∀ ts : List String, ts ≠ [] → (∀ t ∈ ts, isHex6 t = true) →
      parseCoolorsUrl (coolorsPrefix ++ joinDash ts) =
        some ⟨coolorsPrefix ++ joinDash ts, ts⟩) ∧
    (∀ w pal, parseCoolorsUrl w = some pal →
      pal.sourceUrl = w ∧ pal.hexCodes = urlTokens w ∧
        ∀ t ∈ pal.hexCodes, isHex6 t = true) ∧
    (∀ w t, t ∈ urlTokens w → isHex6 t = false → parseCoolorsUrl w = none) := by
  refine ⟨parseCoolorsUrl_join, ?_, parseCoolorsUrl_bad_token⟩
  intro w pal h
  obtain ⟨h1, h2, _, h4⟩ := parseCoolorsUrl_inv w pal h
  exact ⟨h1, h2, h4⟩

open SpecExtractor in
/-- Witness for C5 at the palette URL used throughout the repository's
prompts, and at a URL with one invalid token. -/
theorem spec_C5_witness :
    parseCoolorsUrl "https://coolors.co/edd3c4-c8adc0-7765e3-3b60e4-080708" =
      some ⟨"https://coolors.co/edd3c4-c8adc0-7765e3-3b60e4-080708",
        ["edd3c4", "c8adc0", "7765e3", "3b60e4", "080708"]⟩ ∧
    parseCoolorsUrl "https://coolors.co/edd3c4-c8adcg" = none := by
  constructor
  · have h := spec_C5.1 ["edd3c4", "c8adc0", "7765e3", "3b60e4", "080708"]
      (by decide) (by decide)
    rw [show coolorsPrefix ++
      joinDash ["edd3c4", "c8adc0", "7765e3", "3b60e4", "080708"] =
      "https://coolors.co/edd3c4-c8adc0-7765e3-3b60e4-080708" by decide] at h
    exact h
  · exact spec_C5.2.2 "https://coolors.co/edd3c4-c8adcg" "c8adcg"
      (by decide) (by decide)

open ApiModel in
/-- Claim C1 counterexample: `create_font_comparison` does NOT return both
results regardless of individual failure — when the baseline call gets a
500 response and the styled call succeeds, the returned list carries only
the styled presentation; and the whole operation fails (raises) when the
transport is unreachable for the baseline call alone, even though the
styled transport is reachable. -/
theorem spec_C1_counterexample :
    (create_font_comparison (.resp 500 (.jsonB false none))
      (.resp 200 (.jsonB true (some "A2")))).1 =
      .ok [mkComparisonPres "AFTER" "Merriweather/Inter Fonts (After)" "A2"] ∧
    (create_font_comparison .raise (.resp 200 (.jsonB true (some "A2")))).1 =
      .error .requestRaised := by
  constructor <;> rfl

open ApiModel in
/-- Claim C1 amended: whenever neither creation raises a python fault,
`create_font_comparison` returns, without failing, the list of only the
successfully created presentations, baseline entry first — a creation
failing via non-200 status or remote `success=false` is omitted from the
list rather than reported; and it fails as a whole whenever the transport
raises on either call: a raising baseline post aborts before the styled
request is ever issued, and a raising styled post (after a non-raising
baseline) likewise escapes as the operation's failure, with both requests
then on the log. -/
theorem spec_C1_amended :
    (∀ r1 r2 o1 o2,
      processCreation r1 "BEFORE" "Default Fonts (Before)" = .ok o1 →
      processCreation r2 "AFTER" "Merriweather/Inter Fonts (After)" = .ok o2 →
      create_font_comparison r1 r2 =
        (.ok (o1.toList ++ o2.toList), [beforePrompt, afterPrompt])) ∧
    (∀ r2, create_font_comparison .raise r2 =
      (.error .requestRaised, [beforePrompt])) ∧
    (∀ r1 o1,
      processCreation r1 "BEFORE" "Default Fonts (Before)" = .ok o1 →
      create_font_comparison r1 .raise =
        (.error .requestRaised, [beforePrompt, afterPrompt])) := by
  refine ⟨?_, ?_, ?_⟩
  · intro r1 r2 o1 o2 h1 h2
    unfold create_font_comparison
    rw [h1, h2]
  · intro r2
    rfl
  · intro r1 o1 h1
    unfold create_font_comparison
    rw [h1]
    exact rfl

open ApiModel in
/-- Witness for the amended C1: a successful baseline and a styled call
answered with a 500 yield exactly the baseline entry, with both requests
issued in order; and a successful baseline followed by a raising styled
post fails the run as a whole. -/
theorem spec_C1_witness :
    create_font_comparison (.resp 200 (.jsonB true (some "B1")))
      (.resp 500 .notJson) =
      (.ok [mkComparisonPres "BEFORE" "Default Fonts (Before)" "B1"],
        [beforePrompt, afterPrompt]) ∧
    create_font_comparison (.resp 200 (.jsonB true (some "B1"))) .raise =
      (.error .requestRaised, [beforePrompt, afterPrompt]) :=
  ⟨spec_C1_amended.1 (.resp 200 (.jsonB true (some "B1"))) (.resp 500 .notJson)
    (some (mkComparisonPres "BEFORE" "Default Fonts (Before)" "B1")) none
    rfl rfl,
  spec_C1_amended.2.2 (.resp 200 (.jsonB true (some "B1")))
    (some (mkComparisonPres "BEFORE" "Default Fonts (Before)" "B1")) rfl⟩

open ApiModel in
/-- Claim C2 counterexample: the creation boundary does not map a non-2xx
response to a `success=false` result with an error string starting with
"transport:": `create_presentation_via_api` returns `None` (no structured
result at all) on a 500 response, and a malformed 200 body raises a JSON
decode fault past this boundary instead of being captured. -/
theorem spec_C2_counterexample :
    create_presentation_via_api (.resp 500 (.jsonB true (some "p1"))) =
      .ok none ∧
    create_presentation_via_api (.resp 200 .notJson) =
      .error .jsonDecodeError := by
  constructor <;> rfl

open ApiModel in
/-- Claim C2 amended: `create_presentation_via_api` maps every non-2xx
transport response to the absent result `None` (not an error-carrying
result); and `test_api.py`'s `main` never lets a fault escape — every
fault of its try-block is caught and turned into a printed error
outcome. -/
theorem spec_C2_amended :
    (∀ s b, s ≠ 200 → create_presentation_via_api (.resp s b) = .ok none) ∧
    (∀ r e, test_api_inner r = .error e → test_api_main r = .caughtError e) ∧
    (∀ r, test_api_main r = .caughtError .requestRaised ∨
      ∃ o, test_api_inner r = .ok o ∧ test_api_main r = o ∨
        test_api_main r = .caughtError .jsonDecodeError) := by
  refine ⟨?_, ?_, ?_⟩
  · intro s b hs
    simp only [create_presentation_via_api]
    rw [if_neg hs]
  · intro r e h
    unfold test_api_main
    rw [h]
  · intro r
    cases hr : test_api_inner r with
    | ok o =>
      right
      exact ⟨o, Or.inl ⟨rfl, by unfold test_api_main; rw [hr]⟩⟩
    | error e =>
      cases e with
      | requestRaised => left; unfold test_api_main; rw [hr]
      | jsonDecodeError =>
        right
        exact ⟨.apiFailed, Or.inr (by unfold test_api_main; rw [hr])⟩
      | keyError =>
        exact absurd hr (by
          unfold test_api_inner
          cases r with
          | raise => simp
          | resp s b =>
            by_cases h200 : s = 200 <;> cases b <;>
              simp [h200] <;> (try split) <;> simp)

open ApiModel in
/-- Witness for the amended C2: a 500 response yields the absent result,
and a malformed 200 body is caught by `test_api.py`'s `main`. -/
theorem spec_C2_witness :
    create_presentation_via_api (.resp 500 .notJson) = .ok none ∧
    test_api_main (.resp 200 .notJson) = .caughtError .jsonDecodeError :=
  ⟨spec_C2_amended.1 500 .notJson (by decide),
    spec_C2_amended.2.1 (.resp 200 .notJson) .jsonDecodeError rfl⟩

open CapturePipeline in
/-- Claim C6: in the capture pipeline, the attempted-strategy log always
follows the fixed order explicit-driver, managed-driver, visible-fallback
as a prefix (so no strategy is ever retried); a faulting first strategy is
recorded and the pipeline advances to the next strategy; and when all
strategies fault, `capture` returns the last attempt's failure while the
log still holds every recorded failure. -/
theorem spec_C6 (oEx oMg oVis : Outcome) :
    ((capture oEx oMg oVis).1.map CaptureAttempt.strategyName) <+:
      ["explicit-driver", "managed-driver", "visible-fallback"] ∧
    ((capture oEx oMg oVis).1.map CaptureAttempt.strategyName).Nodup ∧
    (oEx.isFault = true →
      ((capture oEx oMg oVis).1.map CaptureAttempt.strategyName).take 2 =
        ["explicit-driver", "managed-driver"]) ∧
    (oEx.isFault = true → oMg.isFault = true → oVis.isFault = true →
      (capture oEx oMg oVis).2 = ⟨"visible-fallback", oVis⟩ ∧
      (capture oEx oMg oVis).1 =
        [⟨"explicit-driver", oEx⟩, ⟨"managed-driver", oMg⟩,
          ⟨"visible-fallback", oVis⟩]) := by
  cases oEx with
  | success p b =>
    refine ⟨⟨["managed-driver", "visible-fallback"], rfl⟩,
      (by decide : (["explicit-driver"] : List String).Nodup), ?_, ?_⟩
    · intro h; exact absurd h (by simp [Outcome.isFault])
    · intro h; exact absurd h (by simp [Outcome.isFault])
  | fault rEx =>
    cases oMg with
    | success p b =>
      refine ⟨⟨["visible-fallback"], rfl⟩,
        (by decide :
          (["explicit-driver", "managed-driver"] : List String).Nodup),
        fun _ => rfl, ?_⟩
      intro _ h; exact absurd h (by simp [Outcome.isFault])
    | fault rMg =>
      cases oVis with
      | success p b =>
        refine ⟨⟨[], rfl⟩,
          (by decide : (["explicit-driver", "managed-driver",
            "visible-fallback"] : List String).Nodup),
          fun _ => rfl, ?_⟩
        intro _ _ h; exact absurd h (by simp [Outcome.isFault])
      | fault rVis =>
        exact ⟨⟨[], rfl⟩,
          (by decide : (["explicit-driver", "managed-driver",
            "visible-fallback"] : List String).Nodup),
          fun _ => rfl, fun _ _ _ => ⟨rfl, rfl⟩⟩

open CapturePipeline in
/-- Witness for C6: all three strategies faulting returns the
visible-fallback failure, the earlier failures remaining in the log. -/
theorem spec_C6_witness :
    (capture (.fault "launch") (.fault "timeout") (.fault "zero-byte")).2 =
      ⟨"visible-fallback", .fault "zero-byte"⟩ ∧
    (capture (.fault "launch") (.fault "timeout") (.fault "zero-byte")).1 =
      [⟨"explicit-driver", .fault "launch"⟩,
        ⟨"managed-driver", .fault "timeout"⟩,
        ⟨"visible-fallback", .fault "zero-byte"⟩] :=
  (spec_C6 (.fault "launch") (.fault "timeout") (.fault "zero-byte")).2.2.2
    rfl rfl rfl

open ScreenshotScripts in
/-- Claim C7 evidence: `quick_screenshot.py` releases the driver on every
exit path on which it was created (its `finally:` block), but
`final_screenshot.py` does not — when the driver launches and a later step
(here the screenshot save) raises, its except-branch returns without
`driver.quit()`, leaving the created driver unreleased. -/
theorem spec_C7_code_divergence :
    (∀ w, (quick_screenshot_main w).driverReleased =
      (quick_screenshot_main w).driverCreated) ∧
    (final_screenshot_main ⟨true, true, true, false⟩).driverCreated = true ∧
    (final_screenshot_main ⟨true, true, true, false⟩).driverReleased = false := by
  refine ⟨?_, rfl, rfl⟩
  intro w
  obtain ⟨i, c, n, s⟩ := w
  cases i <;> cases c <;> cases n <;> cases s <;> rfl

open ApiModel in
/-- Claim C8: within every run of `create_font_comparison`, the baseline
prompt is posted strictly before the styled prompt: the issued-request log
is either just the baseline request (the baseline post raised, so the
styled request was never issued) or the baseline request followed by the
styled request. -/
theorem spec_C8 (r1 r2 : TResp) :
    (create_font_comparison r1 r2).2 = [beforePrompt] ∨
    (create_font_comparison r1 r2).2 = [beforePrompt, afterPrompt] := by
  unfold create_font_comparison
  cases h1 : processCreation r1 "BEFORE" "Default Fonts (Before)" with
  | error e => left; rfl
  | ok o1 =>
    cases h2 : processCreation r2 "AFTER" "Merriweather/Inter Fonts (After)" with
    | error e => right; rfl
    | ok o2 => right; rfl

open ScreenshotScripts in
/-- Claim C9 counterexample: not every public capture uses a settle wait
strictly shorter than the edit-view settle wait — `debug_screenshot.py`
sleeps 10 seconds before capturing its public target, which is not
shorter than the 8-second edit-view wait of
`scripts/screenshot_presentation.py`. -/
theorem spec_C9_counterexample :
    ¬ (debug_screenshot_pub_settle < screenshot_presentation_edit_settle) := by
  decide

open ScreenshotScripts in
/-- Claim C9 amended: within `scripts/screenshot_presentation.py` — the
one script that captures both views in a single run — the fixed settle
wait before the public capture is strictly shorter than the fixed settle
wait before the edit capture. -/
theorem spec_C9_amended :
    screenshot_presentation_pub_settle < screenshot_presentation_edit_settle := by
  decide

open ExportModel in
/-- Claim C10: for every export download run, a file is written exactly
for those issued export GETs that returned HTTP 200 — a non-200 response
or a raising GET writes nothing for that request, leaving the output
directory untouched by the failed attempt. -/
theorem spec_C10 (ts : String) (r1 r2 : GetResp) :
    export_presentation_screenshots ts r1 r2 =
      (exportIssuedGets r1 r2).filterMap (exportFileFor ts) := by
  have hpng : "screenshots/font_demo_export_" ++ ts ++ "." ++ "png" =
      "screenshots/font_demo_export_" ++ ts ++ ".png" :=
    (String.append_assoc ("screenshots/font_demo_export_" ++ ts) "." "png").trans rfl
  have hsvg : "screenshots/font_demo_export_" ++ ts ++ "." ++ "svg" =
      "screenshots/font_demo_export_" ++ ts ++ ".svg" :=
    (String.append_assoc ("screenshots/font_demo_export_" ++ ts) "." "svg").trans rfl
  cases r1 with
  | raise => rfl
  | resp s1 =>
    cases r2 with
    | raise =>
      by_cases h1 : s1 = 200 <;>
        simp [export_presentation_screenshots, exportIssuedGets,
          exportFileFor, List.filterMap, h1, hpng, hsvg]
    | resp s2 =>
      by_cases h1 : s1 = 200 <;> by_cases h2 : s2 = 200 <;>
        simp [export_presentation_screenshots, exportIssuedGets,
          exportFileFor, List.filterMap, h1, h2, hpng, hsvg]
